import Mathlib

/-!
Shallow embedding of `trading_risk_assistant/bot/risk_logic.py`:
configuration, hard-stop gate, score engine, risk decider and the
orchestrating `evaluate` pipeline, with theorems checking the spec.
Numbers are modelled as rationals; Python dictionaries as association
lists; Python exceptions as `Except String`.
-/

namespace RiskLogic

/-- A raw answer value (Python `Any` restricted to the shapes the engine
sees: booleans and numbers; Python treats `bool` as an integer). -/
inductive Val where
  | vbool (b : Bool)
  | vnum (q : ℚ)
deriving DecidableEq, Repr

/-- Python truthiness of an answer value. -/
def Val.truthy : Val → Bool
  | .vbool b => b
  | .vnum q => q != 0

/-- Numeric coercion of an answer value (Python `bool` counts as 0/1). -/
def Val.toQ : Val → ℚ
  | .vbool b => if b then 1 else 0
  | .vnum q => q

/-- `d.get(k, default)` on an association list. -/
def lookupD {α : Type} (l : List (String × α)) (k : String) (d : α) : α :=
  (l.lookup k).getD d

/-- Dataclass `Answer`: one answered question with its normalized score. -/
structure Answer where
  question_id : String
  question_text : String
  answer : Val
  category : String
  weight : ℚ
  normalized_score : ℚ
deriving DecidableEq, Repr

/-- Dataclass `HardStopResult`. -/
structure HardStopResult where
  passed : Bool
  failed_checks : List String
  reason : Option String
deriving DecidableEq, Repr

/-- Dataclass `RiskDecision` (timestamp is threaded explicitly). -/
structure RiskDecision where
  should_trade : Bool
  risk_percent : ℚ
  final_score : ℚ
  category_scores : List (String × ℚ)
  answers : List Answer
  hard_stop_result : HardStopResult
  lot_size : Option ℚ
  timestamp : String
deriving DecidableEq, Repr

/-- The `hard_stops` section of the configuration (the five thresholds the
gate reads; the code reads them with `config.get('hard_stops', …)`). -/
structure HardStopsCfg where
  max_consecutive_losses : ℚ
  max_daily_loss_percent : ℚ
  min_sleep_hours : ℚ
  psychology_min_score : ℚ
  require_clear_bias : Bool
deriving DecidableEq, Repr

/-- One question dictionary from the `questions` section.  Optional keys
keep their code-side defaults at use sites (`type`→boolean, `min`→1,
`max`→5, `weight`→1, `reverse_score`→false); `id` and `question` are
accessed with `[...]` in the code, hence required. -/
structure Question where
  id : String
  question : String
  qtype : Option String
  qmin : Option ℚ
  qmax : Option ℚ
  weight : Option ℚ
  reverse_score : Option Bool
deriving DecidableEq, Repr

/-- The `scoring` section: category weights and the two thresholds
(read with defaults 50 and 70 in the code). -/
structure ScoringCfg where
  weights : List (String × ℚ)
  no_trade : Option ℚ
  risk_2_percent : Option ℚ
deriving DecidableEq, Repr

/-- The `lot_calculation` section. -/
structure LotCfg where
  pip_values : List (String × ℚ)
  min_lot_size : Option ℚ
  max_lot_size : Option ℚ
deriving DecidableEq, Repr

/-- The loaded configuration as the engine classes read it. -/
structure Config where
  hard_stops : HardStopsCfg
  questions : List (String × List Question)
  scoring : ScoringCfg
  lot : LotCfg
deriving DecidableEq, Repr

/-! Part: HardStopEvaluator -/

/-- Check 1 of `HardStopEvaluator.evaluate`: consecutive losses.  The
failure message indexes `stats['consecutive_losses']` directly, which
raises `KeyError` when the key is absent (only reachable when the
defaulted comparison `0 >= max_losses` already triggered). -/
def check1 (cfg : HardStopsCfg) (stats : List (String × ℚ)) :
    Except String (List String) :=
  if lookupD stats "consecutive_losses" 0 ≥ cfg.max_consecutive_losses then
    match stats.lookup "consecutive_losses" with
    | some v => .ok ["Pérdidas consecutivas (" ++ toString v ++ ") >= "
        ++ toString cfg.max_consecutive_losses]
    | none => .error "KeyError: consecutive_losses"
  else .ok []

/-- Check 2: daily loss percent, same direct-index pattern in the message. -/
def check2 (cfg : HardStopsCfg) (stats : List (String × ℚ)) :
    Except String (List String) :=
  if lookupD stats "daily_loss_percent" 0 ≥ cfg.max_daily_loss_percent then
    match stats.lookup "daily_loss_percent" with
    | some v => .ok ["Pérdida diaria (" ++ toString v ++ "%) >= "
        ++ toString cfg.max_daily_loss_percent ++ "%"]
    | none => .error "KeyError: daily_loss_percent"
  else .ok []

/-- Check 3: sleep hours (`answers.get('sleep_quality', 0)`). -/
def check3 (cfg : HardStopsCfg) (answers : List (String × Val)) : List String :=
  let sleep_hours := (lookupD answers "sleep_quality" (.vnum 0)).toQ
  if sleep_hours < cfg.min_sleep_hours then
    ["Horas de sueño (" ++ toString sleep_hours ++ ") < "
      ++ toString cfg.min_sleep_hours]
  else []

/-- Check 4: mental state (`answers.get('mental_state', 0)`). -/
def check4 (cfg : HardStopsCfg) (answers : List (String × Val)) : List String :=
  let mental_state := (lookupD answers "mental_state" (.vnum 0)).toQ
  if mental_state < cfg.psychology_min_score then
    ["Estado mental (" ++ toString mental_state ++ ") < "
      ++ toString cfg.psychology_min_score]
  else []

/-- Check 5: clear bias (`require_bias and not answers.get('clear_bias', False)`). -/
def check5 (cfg : HardStopsCfg) (answers : List (String × Val)) : List String :=
  if cfg.require_clear_bias && !(lookupD answers "clear_bias" (.vbool false)).truthy
  then ["No tienes un bias claro del mercado"]
  else []

/-- `HardStopEvaluator.evaluate`: runs all five checks, collecting one
failure line per triggered condition; `passed` iff none failed, `reason`
set from the joined lines otherwise. -/
def hardStopEvaluate (cfg : HardStopsCfg) (answers : List (String × Val))
    (stats : List (String × ℚ)) : Except String HardStopResult :=
  match check1 cfg stats with
  | .error e => .error e
  | .ok c1 =>
    match check2 cfg stats with
    | .error e => .error e
    | .ok c2 =>
      let failed_checks :=
        c1 ++ c2 ++ check3 cfg answers ++ check4 cfg answers
          ++ check5 cfg answers
      let passed := failed_checks.isEmpty
      let reason := if passed then none else
        some ("Hard stops fallados: " ++ String.intercalate "; " failed_checks)
      .ok { passed := passed, failed_checks := failed_checks, reason := reason }

/-! Part: ScoreCalculator -/

/-- `ScoreCalculator.normalize_answer`: kind-dispatched normalization of a
raw answer to a 0–100 score (`type` defaults to `boolean`; unknown kinds
and non-sleep `number` questions yield 0). -/
def normalize_answer (question : Question) (answer : Val) : ℚ :=
  let q_type := question.qtype.getD "boolean"
  if q_type = "boolean" then
    let base_score : ℚ := if answer.truthy then 100 else 0
    if question.reverse_score.getD false then 100 - base_score else base_score
  else if q_type = "scale" then
    let min_val := question.qmin.getD 1
    let max_val := question.qmax.getD 5
    let normalized := ((answer.toQ - min_val) / (max_val - min_val)) * 100
    max 0 (min 100 normalized)
  else if q_type = "number" then
    if question.id = "sleep_quality" then
      if answer.toQ ≥ 8 then 100
      else if answer.toQ ≥ 6 then 70
      else if answer.toQ ≥ 5 then 50
      else 0
    else 0
  else 0

/-- The loop body of `calculate_category_score` over the configured
questions: builds the `Answer` records in order and accumulates the
weighted-score and weight sums, skipping questions absent from `answers`. -/
def catScan (category : String) (answers : List (String × Val)) :
    List Question → List Answer × ℚ × ℚ
  | [] => ([], 0, 0)
  | question :: rest =>
    match answers.lookup question.id with
    | none => catScan category answers rest
    | some answer_value =>
      let normalized := normalize_answer question answer_value
      let weight := question.weight.getD 1
      let answer_obj : Answer :=
        { question_id := question.id, question_text := question.question,
          answer := answer_value, category := category, weight := weight,
          normalized_score := normalized }
      let (recs, s, w) := catScan category answers rest
      (answer_obj :: recs, normalized * weight + s, weight + w)

/-- `ScoreCalculator.calculate_category_score`: weighted mean over the
category's answered questions, 0 when the accumulated weight is not
positive. -/
def calculate_category_score (cfg : Config) (category : String)
    (answers : List (String × Val)) : ℚ × List Answer :=
  let questions := lookupD cfg.questions category []
  let (category_answers, total_weighted_score, total_weight) :=
    catScan category answers questions
  (if 0 < total_weight then total_weighted_score / total_weight else 0,
   category_answers)

/-- The three fixed categories iterated by `calculate_final_score`. -/
def categories : List String :=
  ["psychology", "market_conditions", "technical_confluence"]

/-- The loop body of `calculate_final_score`: per-category scores and
records plus the weighted accumulation using the configured category
weights (`weights.get(category, 0)`). -/
def finScan (cfg : Config) (answers : List (String × Val)) :
    List String → List (String × ℚ) × List Answer × ℚ × ℚ
  | [] => ([], [], 0, 0)
  | category :: rest =>
    let (cat_score, cat_answers) := calculate_category_score cfg category answers
    let cat_weight := lookupD cfg.scoring.weights category 0
    let (scores, recs, s, w) := finScan cfg answers rest
    ((category, cat_score) :: scores, cat_answers ++ recs,
     cat_score * cat_weight + s, cat_weight + w)

/-- `ScoreCalculator.calculate_final_score`: weighted mean of the three
category scores, 0 when the total category weight is not positive. -/
def calculate_final_score (cfg : Config) (answers : List (String × Val)) :
    ℚ × List (String × ℚ) × List Answer :=
  let (category_scores, all_answers, total_weighted_score, total_weight) :=
    finScan cfg answers categories
  (if 0 < total_weight then total_weighted_score / total_weight else 0,
   category_scores, all_answers)

/-! Part: RiskDecisionMaker -/

/-- `RiskDecisionMaker.decide_risk`: three-tier step function on the two
thresholds (defaults 50 and 70). -/
def decide_risk (cfg : Config) (final_score : ℚ) : Bool × ℚ :=
  let no_trade := cfg.scoring.no_trade.getD 50
  let risk_2 := cfg.scoring.risk_2_percent.getD 70
  if final_score < no_trade then (false, 0)
  else if final_score < risk_2 then (true, 2)
  else (true, 3)

/-- Python `round(x)` on our exact rationals: banker's rounding (round
half to even). -/
def roundHalfEven (q : ℚ) : ℤ :=
  if q - ⌊q⌋ < 1/2 then ⌊q⌋
  else if 1/2 < q - ⌊q⌋ then ⌈q⌉
  else if Even ⌊q⌋ then ⌊q⌋ else ⌈q⌉

/-- Round to two decimal places as Python's `round(·, 2)` does. -/
def pyRound2 (q : ℚ) : ℚ := (roundHalfEven (q * 100) : ℚ) / 100

/-- Python `str.upper()` (the instrument symbols the code upper-cases are
ASCII). -/
def strUpper (s : String) : String := ⟨s.data.map Char.toUpper⟩

/-- `RiskDecisionMaker.calculate_lot_size`: pip value looked up on the
upper-cased pair (default 10), raw size `risk_amount / (sl_pips·pip_value)`
(ZeroDivisionError when the divisor is 0), clamped to `[min_lot, max_lot]`
(defaults 0.01 and 10.0) and rounded to 2 decimals. -/
def calculate_lot_size (cfg : Config) (risk_percent balance sl_pips : ℚ)
    (pair : String) : Except String ℚ :=
  let pip_value := lookupD cfg.lot.pip_values (strUpper pair) 10
  let risk_amount := balance * (risk_percent / 100)
  if sl_pips * pip_value = 0 then .error "ZeroDivisionError"
  else
    let lot_size := risk_amount / (sl_pips * pip_value)
    let min_lot := cfg.lot.min_lot_size.getD (1/100)
    let max_lot := cfg.lot.max_lot_size.getD 10
    .ok (pyRound2 (max min_lot (min max_lot lot_size)))

/-! Part: RiskAssistant -/

/-- `RiskAssistant.evaluate`: hard stops first (early return with
zero/empty fields on failure), then scoring, risk decision, and lot sizing
when `should_trade` and all three trade details are supplied and truthy.
The wall-clock timestamp is threaded explicitly as `ts`. -/
def evaluate (cfg : Config) (answers : List (String × Val))
    (stats : List (String × ℚ)) (balance : Option ℚ) (sl_pips : Option ℚ)
    (pair : Option String) (ts : String) : Except String RiskDecision :=
  match hardStopEvaluate cfg.hard_stops answers stats with
  | .error e => .error e
  | .ok hard_stop_result =>
    if hard_stop_result.passed then
      let (final_score, category_scores, all_answers) :=
        calculate_final_score cfg answers
      let (should_trade, risk_percent) := decide_risk cfg final_score
      match balance, sl_pips, pair with
      | some b, some sp, some p =>
        if should_trade ∧ b ≠ 0 ∧ sp ≠ 0 ∧ p ≠ "" then
          match calculate_lot_size cfg risk_percent b sp p with
          | .error e => .error e
          | .ok ls =>
            .ok { should_trade := should_trade, risk_percent := risk_percent,
                  final_score := final_score, category_scores := category_scores,
                  answers := all_answers, hard_stop_result := hard_stop_result,
                  lot_size := some ls, timestamp := ts }
        else
          .ok { should_trade := should_trade, risk_percent := risk_percent,
                final_score := final_score, category_scores := category_scores,
                answers := all_answers, hard_stop_result := hard_stop_result,
                lot_size := none, timestamp := ts }
      | _, _, _ =>
        .ok { should_trade := should_trade, risk_percent := risk_percent,
              final_score := final_score, category_scores := category_scores,
              answers := all_answers, hard_stop_result := hard_stop_result,
              lot_size := none, timestamp := ts }
    else
      .ok { should_trade := false, risk_percent := 0, final_score := 0,
            category_scores := [], answers := [],
            hard_stop_result := hard_stop_result, lot_size := none,
            timestamp := ts }

/-! Part: ConfigLoader -/

/-- A parsed configuration document (nested YAML mapping). -/
inductive CVal where
  | num (q : ℚ)
  | cbool (b : Bool)
  | cstr (s : String)
  | dict (entries : List (String × CVal))

/-- `ConfigLoader._load_config`: raises when the file is absent, otherwise
yields the parsed document. -/
def loadConfig : Option CVal → Except String CVal
  | none => .error "FileNotFoundError"
  | some v => .ok v

/-- `ConfigLoader.get(*keys, default=None)`: walks the nested dictionaries,
returning `default` as soon as a key is absent or a non-dict is indexed. -/
def cfgGet : CVal → List String → Option CVal → Option CVal
  | v, [], _ => some v
  | .dict entries, key :: rest, dflt =>
    match entries.lookup key with
    | none => dflt
    | some v => cfgGet v rest dflt
  | _, _ :: _, dflt => dflt

/-- Modelled from the spec: the RuleConfig accessor the spec describes,
which fails with a `ConfigurationError` when a required key is absent and
no default was supplied (this strict accessor does not exist in
`risk_logic.py`; `ConfigLoader.get` is the code's accessor). -/
def specGet : CVal → List String → Option CVal → Except String (Option CVal)
  | v, [], _ => .ok (some v)
  | .dict entries, key :: rest, dflt =>
    match entries.lookup key with
    | none =>
      match dflt with
      | none => .error "ConfigurationError"
      | some d => .ok (some d)
    | some v => specGet v rest dflt
  | _, _ :: _, dflt =>
    match dflt with
    | none => .error "ConfigurationError"
    | some d => .ok (some d)

/-! Part: Shared helper lemmas and example configuration -/

theorem roundHalfEven_intCast (n : ℤ) : roundHalfEven (n : ℚ) = n := by
  simp [roundHalfEven]

/-- Rounding to two decimals fixes every integer multiple of `1/100`. -/
theorem pyRound2_cent (q : ℚ) (n : ℤ) (h : q * 100 = (n : ℚ)) :
    pyRound2 q = q := by
  unfold pyRound2
  rw [h, roundHalfEven_intCast, ← h]
  field_simp

/-- A concrete configuration used to instantiate the theorems: thresholds
50/70, three weighted categories, pip table with one known instrument. -/
def cfgEx : Config :=
  { hard_stops :=
      { max_consecutive_losses := 3
        max_daily_loss_percent := 5
        min_sleep_hours := 5
        psychology_min_score := 3
        require_clear_bias := true }
    questions :=
      [("psychology",
         [{ id := "mental_state"
            question := "mental?"
            qtype := some "scale"
            qmin := some 1
            qmax := some 5
            weight := some 2
            reverse_score := none }]),
       ("market_conditions",
         [{ id := "clear_bias"
            question := "bias?"
            qtype := some "boolean"
            qmin := none
            qmax := none
            weight := some 1
            reverse_score := none }])]
    scoring :=
      { weights := [("psychology", 40), ("market_conditions", 30),
          ("technical_confluence", 30)]
        no_trade := some 50
        risk_2_percent := some 70 }
    lot :=
      { pip_values := [("GBPUSD", 20)]
        min_lot_size := some (1/100)
        max_lot_size := some 10 } }

theorem lookup_append_of_eq_none {α : Type} (l : List (String × α))
    (k k' : String) (v : α) (h : l.lookup k' = none) :
    (l ++ [(k, v)]).lookup k' = if k' == k then some v else none := by
  induction l with
  | nil =>
    simp only [List.nil_append, List.lookup]
    rcases hpk : (k' == k) with _ | _ <;> simp_all
  | cons p rest ih =>
    rw [List.lookup] at h
    rcases hpk : (k' == p.1) with _ | _
    · rw [hpk] at h
      simp only [List.cons_append, List.lookup, hpk]
      exact ih h
    · rw [hpk] at h
      exact absurd h (by simp)

/-! Part: Claim theorems -/

/-- C3: `decide_risk` is the three-tier step function over the configured
cutoffs `no_trade` and `risk_2_percent` (given `no_trade < risk_2_percent`):
below `no_trade` it yields `(false, 0)`, in `[no_trade, risk_2_percent)` it
yields `(true, 2)`, and from `risk_2_percent` on it yields `(true, 3)`;
with cutoffs 50 and 70, score 49 is no-trade, 50 and 69 are the 2% tier,
and 70 is the 3% tier. -/
theorem decide_risk_three_tier :
    (∀ (cfg : Config) (s : ℚ),
      cfg.scoring.no_trade.getD 50 < cfg.scoring.risk_2_percent.getD 70 →
      (s < cfg.scoring.no_trade.getD 50 → decide_risk cfg s = (false, 0))
      ∧ (cfg.scoring.no_trade.getD 50 ≤ s →
          s < cfg.scoring.risk_2_percent.getD 70 → decide_risk cfg s = (true, 2))
      ∧ (cfg.scoring.risk_2_percent.getD 70 ≤ s → decide_risk cfg s = (true, 3)))
    ∧ decide_risk cfgEx 49 = (false, 0)
    ∧ decide_risk cfgEx 50 = (true, 2)
    ∧ decide_risk cfgEx 69 = (true, 2)
    ∧ decide_risk cfgEx 70 = (true, 3) := by
  constructor
  · intro cfg s hlt
    unfold decide_risk
    refine ⟨fun h1 => ?_, fun h2a h2b => ?_, fun h3 => ?_⟩ <;>
      dsimp only <;> split_ifs with h h' <;> try rfl
    all_goals (exfalso; linarith)
  · refine ⟨?_, ?_, ?_, ?_⟩ <;> norm_num [decide_risk, cfgEx]

theorem decide_risk_three_tier_witness : decide_risk cfgEx 60 = (true, 2) :=
  (decide_risk_three_tier.1 cfgEx 60 (by norm_num [cfgEx])).2.1
    (by norm_num [cfgEx]) (by norm_num [cfgEx])

/-- C4: for positive balance, stop-loss pips and pip value,
`calculate_lot_size` returns the raw size
`balance·(risk/100) / (sl_pips·pip_value)` clamped to the configured
`[min_lot, max_lot]` and rounded to two decimals, where the pip value is
the case-insensitive lookup of the instrument with default 10; with
`min_lot = 0.01` and `max_lot = 10`, a raw size of 50 clamps to 10 and a
raw size of 0.001 clamps to 0.01 (and lookups are case-insensitive with
default 10, as the `gbpusd`/`XYZ` instances show). -/
theorem calculate_lot_size_spec :
    (∀ (cfg : Config) (risk_percent balance sl_pips : ℚ) (pair : String),
      0 < balance → 0 < sl_pips →
      0 < lookupD cfg.lot.pip_values (strUpper pair) 10 →
      calculate_lot_size cfg risk_percent balance sl_pips pair =
        .ok (pyRound2 (max (cfg.lot.min_lot_size.getD (1/100))
          (min (cfg.lot.max_lot_size.getD 10)
            (balance * (risk_percent / 100)
              / (sl_pips * lookupD cfg.lot.pip_values (strUpper pair) 10))))))
    ∧ calculate_lot_size cfgEx 2 50000 2 "EURUSD" = .ok 10
    ∧ calculate_lot_size cfgEx 2 100 200 "EURUSD" = .ok (1/100)
    ∧ calculate_lot_size cfgEx 2 1000 2 "gbpusd" = .ok (1/2)
    ∧ calculate_lot_size cfgEx 2 1000 2 "XYZ" = .ok 1 := by
  have hEU : strUpper "EURUSD" = "EURUSD" := by decide
  have hGB : strUpper "gbpusd" = "GBPUSD" := by decide
  have hXY : strUpper "XYZ" = "XYZ" := by decide
  refine ⟨?_, ?_, ?_, ?_, ?_⟩
  · intro cfg rp b sp pair hb hs hp
    have hne : sp * lookupD cfg.lot.pip_values (strUpper pair) 10 ≠ 0 :=
      ne_of_gt (mul_pos hs hp)
    unfold calculate_lot_size
    simp [hne]
  · simp [calculate_lot_size, lookupD, List.lookup, hEU, cfgEx]
    norm_num
    exact pyRound2_cent 10 1000 (by norm_num)
  · simp [calculate_lot_size, lookupD, List.lookup, hEU, cfgEx]
    norm_num
    exact pyRound2_cent (1/100) 1 (by norm_num)
  · simp [calculate_lot_size, lookupD, List.lookup, hGB, cfgEx]
    norm_num
    exact pyRound2_cent (1/2) 50 (by norm_num)
  · simp [calculate_lot_size, lookupD, List.lookup, hXY, cfgEx]
    norm_num
    exact pyRound2_cent 1 100 (by norm_num)

theorem calculate_lot_size_spec_witness :
    calculate_lot_size cfgEx 3 10000 20 "EURUSD" = .ok (3/2) := by
  have hEU : strUpper "EURUSD" = "EURUSD" := by decide
  have h := calculate_lot_size_spec.1 cfgEx 3 10000 20 "EURUSD"
    (by norm_num) (by norm_num)
    (by simp [hEU, lookupD, List.lookup, cfgEx])
  rw [h]
  simp [lookupD, List.lookup, hEU, cfgEx]
  norm_num
  exact pyRound2_cent (3/2) 150 (by norm_num)

/-- A concrete sleep-hours question used to instantiate the normalization
theorem. -/
def qSleepEx : Question :=
  { id := "sleep_quality"
    question := "hours of sleep?"
    qtype := some "number"
    qmin := none
    qmax := none
    weight := some 1
    reverse_score := none }

/-- C5: `normalize_answer` always lands in [0,100] and follows the
kind-specific rules: `boolean` maps truthy to 100 and falsy to 0 (flipped
when `reverse_score` is set); `scale` is the linear rescale
`(raw−min)/(max−min)·100` clamped to [0,100] and is monotone in the raw
answer when `min < max`; `number` is the sleep-hours step function
(`≥8→100, ≥6→70, ≥5→50, else 0`) for the `sleep_quality` question and 0
for every other `number` question. -/
theorem normalize_answer_spec :
    (∀ (q : Question) (a : Val),
        0 ≤ normalize_answer q a ∧ normalize_answer q a ≤ 100)
    ∧ (∀ (q : Question) (a : Val), q.qtype.getD "boolean" = "boolean" →
        q.reverse_score.getD false = false →
        normalize_answer q a = if a.truthy then 100 else 0)
    ∧ (∀ (q : Question) (a : Val), q.qtype.getD "boolean" = "boolean" →
        q.reverse_score.getD false = true →
        normalize_answer q a = if a.truthy then 0 else 100)
    ∧ (∀ (q : Question) (a : Val), q.qtype.getD "boolean" = "scale" →
        normalize_answer q a = max 0 (min 100
          ((a.toQ - q.qmin.getD 1) / (q.qmax.getD 5 - q.qmin.getD 1) * 100)))
    ∧ (∀ (q : Question) (a b : Val), q.qtype.getD "boolean" = "scale" →
        q.qmin.getD 1 < q.qmax.getD 5 → a.toQ ≤ b.toQ →
        normalize_answer q a ≤ normalize_answer q b)
    ∧ (∀ (q : Question) (a : Val), q.qtype.getD "boolean" = "number" →
        q.id = "sleep_quality" →
        normalize_answer q a =
          if 8 ≤ a.toQ then 100 else if 6 ≤ a.toQ then 70
          else if 5 ≤ a.toQ then 50 else 0)
    ∧ (∀ (q : Question) (a : Val), q.qtype.getD "boolean" = "number" →
        q.id ≠ "sleep_quality" → normalize_answer q a = 0) := by
  have hscale : ∀ (q : Question) (a : Val), q.qtype.getD "boolean" = "scale" →
      normalize_answer q a = max 0 (min 100
        ((a.toQ - q.qmin.getD 1) / (q.qmax.getD 5 - q.qmin.getD 1) * 100)) := by
    intro q a h
    simp [normalize_answer, h]
  refine ⟨?_, ?_, ?_, hscale, ?_, ?_, ?_⟩
  · intro q a
    unfold normalize_answer
    dsimp only
    split_ifs <;> constructor <;> norm_num
  · intro q a h hrev
    simp [normalize_answer, h, hrev]
  · intro q a h hrev
    cases ha : a.truthy <;> simp [normalize_answer, h, hrev, ha]
  · intro q a b h hmm hab
    rw [hscale q a h, hscale q b h]
    refine max_le_max le_rfl (min_le_min le_rfl ?_)
    gcongr <;> linarith
  · intro q a h hid
    simp [normalize_answer, h, hid, ge_iff_le]
  · intro q a h hid
    simp [normalize_answer, h, hid]

theorem normalize_answer_spec_witness :
    normalize_answer qSleepEx (.vnum 7) = 70 := by
  have h := normalize_answer_spec.2.2.2.2.2.1 qSleepEx (.vnum 7)
    (by simp [qSleepEx]) (by simp [qSleepEx])
  rw [h]
  norm_num [Val.toQ]

/-- The `HardStopResult` assembled from the five check outcomes. -/
def assembleHS (c1 c2 c3 c4 c5 : List String) : HardStopResult :=
  let failed_checks := c1 ++ c2 ++ c3 ++ c4 ++ c5
  { passed := failed_checks.isEmpty
    failed_checks := failed_checks
    reason := if failed_checks.isEmpty then none else
      some ("Hard stops fallados: " ++ String.intercalate "; " failed_checks) }

theorem hardStopEvaluate_ok_iff (cfg : HardStopsCfg)
    (answers : List (String × Val)) (stats : List (String × ℚ))
    (r : HardStopResult) :
    hardStopEvaluate cfg answers stats = .ok r ↔
      ∃ c1 c2, check1 cfg stats = .ok c1 ∧ check2 cfg stats = .ok c2 ∧
        r = assembleHS c1 c2 (check3 cfg answers) (check4 cfg answers)
              (check5 cfg answers) := by
  unfold hardStopEvaluate
  cases hc1 : check1 cfg stats with
  | error e => simp [hc1]
  | ok c1 =>
    cases hc2 : check2 cfg stats with
    | error e => simp [hc2]
    | ok c2 =>
      simp only [assembleHS]
      constructor
      · intro h
        exact ⟨c1, c2, rfl, rfl, (Except.ok.injEq _ _).mp h.symm⟩
      · rintro ⟨d1, d2, hd1, hd2, hr⟩
        obtain rfl : c1 = d1 := (Except.ok.injEq _ _).mp hd1
        obtain rfl : c2 = d2 := (Except.ok.injEq _ _).mp hd2
        rw [hr]

/-- The hard-stop outcome of `cfgEx` on empty answers and stats: the
sleep, mental-state and bias checks all fail. -/
def hsFailEx : HardStopResult :=
  assembleHS [] [] (check3 cfgEx.hard_stops []) (check4 cfgEx.hard_stops [])
    (check5 cfgEx.hard_stops [])

theorem hsFailEx_eval :
    hardStopEvaluate cfgEx.hard_stops [] [] = .ok hsFailEx := by
  refine (hardStopEvaluate_ok_iff _ _ _ _).mpr ⟨[], [], ?_, ?_, rfl⟩
  · simp only [check1, lookupD, cfgEx, List.lookup]
    norm_num
  · simp only [check2, lookupD, cfgEx, List.lookup]
    norm_num

theorem hsFailEx_passed : hsFailEx.passed = false := by
  simp only [hsFailEx, assembleHS, check3, check4, check5, lookupD, cfgEx,
    List.lookup]
  norm_num [Val.toQ, Val.truthy]

theorem evaluate_cfgEx_fail (b sp : Option ℚ) (p : Option String)
    (ts : String) :
    evaluate cfgEx [] [] b sp p ts = .ok
      { should_trade := false, risk_percent := 0, final_score := 0,
        category_scores := [], answers := [], hard_stop_result := hsFailEx,
        lot_size := none, timestamp := ts } := by
  unfold evaluate
  rw [hsFailEx_eval]
  dsimp only
  rw [hsFailEx_passed]
  simp

/-- C2: any `HardStopResult` actually returned satisfies
`passed ↔ failed_checks = []`, `reason` is present iff not passed and then
equals the failure lines joined with `"; "` (after a fixed prefix), and
each of the five conditions contributes its own line to `failed_checks`
whenever it is triggered — no check short-circuits another. -/
theorem hard_stop_outcome_invariants :
    ∀ (cfg : HardStopsCfg) (answers : List (String × Val))
      (stats : List (String × ℚ)) (r : HardStopResult),
    hardStopEvaluate cfg answers stats = .ok r →
    ((r.passed = true ↔ r.failed_checks = [])
     ∧ (r.reason.isSome ↔ r.passed = false)
     ∧ (r.passed = false →
         r.reason = some ("Hard stops fallados: "
           ++ String.intercalate "; " r.failed_checks))
     ∧ (lookupD stats "consecutive_losses" 0 ≥ cfg.max_consecutive_losses →
         ∃ v, stats.lookup "consecutive_losses" = some v ∧
           ("Pérdidas consecutivas (" ++ toString v ++ ") >= "
             ++ toString cfg.max_consecutive_losses) ∈ r.failed_checks)
     ∧ (lookupD stats "daily_loss_percent" 0 ≥ cfg.max_daily_loss_percent →
         ∃ v, stats.lookup "daily_loss_percent" = some v ∧
           ("Pérdida diaria (" ++ toString v ++ "%) >= "
             ++ toString cfg.max_daily_loss_percent ++ "%") ∈ r.failed_checks)
     ∧ ((lookupD answers "sleep_quality" (.vnum 0)).toQ < cfg.min_sleep_hours →
         ("Horas de sueño ("
           ++ toString (lookupD answers "sleep_quality" (.vnum 0)).toQ
           ++ ") < " ++ toString cfg.min_sleep_hours) ∈ r.failed_checks)
     ∧ ((lookupD answers "mental_state" (.vnum 0)).toQ
           < cfg.psychology_min_score →
         ("Estado mental ("
           ++ toString (lookupD answers "mental_state" (.vnum 0)).toQ
           ++ ") < " ++ toString cfg.psychology_min_score) ∈ r.failed_checks)
     ∧ (cfg.require_clear_bias = true →
         (lookupD answers "clear_bias" (.vbool false)).truthy = false →
         "No tienes un bias claro del mercado" ∈ r.failed_checks)) := by
  intro cfg answers stats r h
  obtain ⟨c1, c2, hc1, hc2, rfl⟩ := (hardStopEvaluate_ok_iff _ _ _ _).mp h
  refine ⟨?_, ?_, ?_, ?_, ?_, ?_, ?_, ?_⟩
  · simp [assembleHS, List.isEmpty_iff]
  · cases hEmpty : (c1 ++ c2 ++ check3 cfg answers ++ check4 cfg answers
        ++ check5 cfg answers).isEmpty <;>
      simp [assembleHS, hEmpty]
  · intro hp
    cases hEmpty : (c1 ++ c2 ++ check3 cfg answers ++ check4 cfg answers
        ++ check5 cfg answers).isEmpty <;>
      simp_all [assembleHS]
  · intro hcond
    unfold check1 at hc1
    rw [if_pos hcond] at hc1
    cases hl : stats.lookup "consecutive_losses" with
    | none => rw [hl] at hc1; exact absurd hc1 (by simp)
    | some v =>
      rw [hl] at hc1
      obtain rfl : c1 = _ := ((Except.ok.injEq _ _).mp hc1).symm
      exact ⟨v, rfl, by simp [assembleHS]⟩
  · intro hcond
    unfold check2 at hc2
    rw [if_pos hcond] at hc2
    cases hl : stats.lookup "daily_loss_percent" with
    | none => rw [hl] at hc2; exact absurd hc2 (by simp)
    | some v =>
      rw [hl] at hc2
      obtain rfl : c2 = _ := ((Except.ok.injEq _ _).mp hc2).symm
      exact ⟨v, rfl, by simp [assembleHS]⟩
  · intro hcond
    have h3 : check3 cfg answers = ["Horas de sueño ("
        ++ toString (lookupD answers "sleep_quality" (.vnum 0)).toQ
        ++ ") < " ++ toString cfg.min_sleep_hours] := by
      simp [check3, hcond]
    simp [assembleHS, h3]
  · intro hcond
    have h4 : check4 cfg answers = ["Estado mental ("
        ++ toString (lookupD answers "mental_state" (.vnum 0)).toQ
        ++ ") < " ++ toString cfg.psychology_min_score] := by
      simp [check4, hcond]
    simp [assembleHS, h4]
  · intro hb hcond
    have h5 : check5 cfg answers = ["No tienes un bias claro del mercado"] := by
      simp [check5, hb, hcond]
    simp [assembleHS, h5]

theorem hard_stop_outcome_invariants_witness :
    "No tienes un bias claro del mercado" ∈ hsFailEx.failed_checks :=
  (hard_stop_outcome_invariants cfgEx.hard_stops [] [] hsFailEx
      hsFailEx_eval).2.2.2.2.2.2.2
    (by simp [cfgEx]) (by simp [lookupD, List.lookup, Val.truthy])

theorem lookup_append_same {α : Type} (l : List (String × α)) (k : String)
    (v : α) (h : l.lookup k = none) : (l ++ [(k, v)]).lookup k = some v := by
  rw [lookup_append_of_eq_none l k k v h]
  simp

theorem lookup_append_other {α : Type} (l : List (String × α))
    (k k' : String) (v : α) (hkk : k' ≠ k) :
    (l ++ [(k, v)]).lookup k' = l.lookup k' := by
  induction l with
  | nil => simp [List.lookup, beq_false_of_ne hkk]
  | cons p rest ih =>
    simp only [List.cons_append, List.lookup]
    rcases hpk : (k' == p.1) with _ | _
    · exact ih
    · rfl

/-- A configuration whose consecutive-loss limit is not positive: it makes
the defaulted comparison `0 >= max_consecutive_losses` trigger even when
the stat is missing, reaching the `stats['consecutive_losses']` access in
the message. -/
def hsBadEx : HardStopsCfg :=
  { max_consecutive_losses := 0
    max_daily_loss_percent := 5
    min_sleep_hours := 0
    psychology_min_score := 0
    require_clear_bias := false }

/-- C7 counterexample: with a non-positive configured loss limit and no
`consecutive_losses` stat, `HardStopEvaluator.evaluate` does not complete
normally — building the failure message indexes the missing key and
raises `KeyError`. -/
theorem hard_stop_missing_keys_counterexample :
    hardStopEvaluate hsBadEx [] [] = .error "KeyError: consecutive_losses" := by
  simp [hardStopEvaluate, check1, check2, check3, check4, check5, lookupD,
    List.lookup, hsBadEx]

/-- C7 amended: provided the two configured loss limits are positive,
`HardStopEvaluator.evaluate` completes normally on every answers/stats
mapping, and a missing key behaves exactly as if it were present with its
permissive default (0 for the numeric stats, sleep and mental state,
false for the bias answer) — an unanswered question can trigger a failure
line but not an exception. -/
theorem hard_stop_missing_keys_amended :
    ∀ (cfg : HardStopsCfg) (answers : List (String × Val))
      (stats : List (String × ℚ)),
    0 < cfg.max_consecutive_losses → 0 < cfg.max_daily_loss_percent →
    (∃ r, hardStopEvaluate cfg answers stats = .ok r)
    ∧ (stats.lookup "consecutive_losses" = none →
        hardStopEvaluate cfg answers stats =
          hardStopEvaluate cfg answers (stats ++ [("consecutive_losses", 0)]))
    ∧ (stats.lookup "daily_loss_percent" = none →
        hardStopEvaluate cfg answers stats =
          hardStopEvaluate cfg answers (stats ++ [("daily_loss_percent", 0)]))
    ∧ (answers.lookup "sleep_quality" = none →
        hardStopEvaluate cfg answers stats =
          hardStopEvaluate cfg (answers ++ [("sleep_quality", .vnum 0)]) stats)
    ∧ (answers.lookup "mental_state" = none →
        hardStopEvaluate cfg answers stats =
          hardStopEvaluate cfg (answers ++ [("mental_state", .vnum 0)]) stats)
    ∧ (answers.lookup "clear_bias" = none →
        hardStopEvaluate cfg answers stats =
          hardStopEvaluate cfg (answers ++ [("clear_bias", .vbool false)])
            stats) := by
  intro cfg answers stats h1 h2
  refine ⟨?_, ?_, ?_, ?_, ?_, ?_⟩
  · have hc1 : ∃ c, check1 cfg stats = .ok c := by
      unfold check1
      split_ifs with hcond
      · cases hl : stats.lookup "consecutive_losses" with
        | none =>
          exfalso
          rw [show lookupD stats "consecutive_losses" 0 = 0 by
            simp [lookupD, hl]] at hcond
          exact absurd hcond (by simp; linarith)
        | some v => exact ⟨_, rfl⟩
      · exact ⟨[], rfl⟩
    have hc2 : ∃ c, check2 cfg stats = .ok c := by
      unfold check2
      split_ifs with hcond
      · cases hl : stats.lookup "daily_loss_percent" with
        | none =>
          exfalso
          rw [show lookupD stats "daily_loss_percent" 0 = 0 by
            simp [lookupD, hl]] at hcond
          exact absurd hcond (by simp; linarith)
        | some v => exact ⟨_, rfl⟩
      · exact ⟨[], rfl⟩
    obtain ⟨c1, hc1⟩ := hc1
    obtain ⟨c2, hc2⟩ := hc2
    exact ⟨_, (hardStopEvaluate_ok_iff _ _ _ _).mpr ⟨c1, c2, hc1, hc2, rfl⟩⟩
  · intro hnone
    have hzero : ¬ ((0:ℚ) ≥ cfg.max_consecutive_losses) := by
      simp only [ge_iff_le, not_le]
      exact h1
    have e1 : check1 cfg (stats ++ [("consecutive_losses", 0)])
        = check1 cfg stats := by
      unfold check1
      rw [show lookupD (stats ++ [("consecutive_losses", (0:ℚ))])
            "consecutive_losses" 0 = 0 by
          simp [lookupD, lookup_append_same _ _ _ hnone]]
      rw [show lookupD stats "consecutive_losses" (0:ℚ) = 0 by
          simp [lookupD, hnone]]
      rw [if_neg hzero, if_neg hzero]
    have e2 : check2 cfg (stats ++ [("consecutive_losses", 0)])
        = check2 cfg stats := by
      unfold check2
      rw [show lookupD (stats ++ [("consecutive_losses", (0:ℚ))])
            "daily_loss_percent" 0 = lookupD stats "daily_loss_percent" 0 by
          simp [lookupD, lookup_append_other _ _ _ _
            (show "daily_loss_percent" ≠ "consecutive_losses" by decide)]]
      rw [lookup_append_other stats "consecutive_losses" "daily_loss_percent"
        (0:ℚ) (by decide)]
    unfold hardStopEvaluate
    rw [e1, e2]
  · intro hnone
    have hzero : ¬ ((0:ℚ) ≥ cfg.max_daily_loss_percent) := by
      simp only [ge_iff_le, not_le]
      exact h2
    have e1 : check1 cfg (stats ++ [("daily_loss_percent", 0)])
        = check1 cfg stats := by
      unfold check1
      rw [show lookupD (stats ++ [("daily_loss_percent", (0:ℚ))])
            "consecutive_losses" 0 = lookupD stats "consecutive_losses" 0 by
          simp [lookupD, lookup_append_other _ _ _ _
            (show "consecutive_losses" ≠ "daily_loss_percent" by decide)]]
      rw [lookup_append_other stats "daily_loss_percent" "consecutive_losses"
        (0:ℚ) (by decide)]
    have e2 : check2 cfg (stats ++ [("daily_loss_percent", 0)])
        = check2 cfg stats := by
      unfold check2
      rw [show lookupD (stats ++ [("daily_loss_percent", (0:ℚ))])
            "daily_loss_percent" 0 = 0 by
          simp [lookupD, lookup_append_same _ _ _ hnone]]
      rw [show lookupD stats "daily_loss_percent" (0:ℚ) = 0 by
          simp [lookupD, hnone]]
      rw [if_neg hzero, if_neg hzero]
    unfold hardStopEvaluate
    rw [e1, e2]
  · intro hnone
    have e3 : check3 cfg (answers ++ [("sleep_quality", .vnum 0)])
        = check3 cfg answers := by
      unfold check3
      simp [lookupD, hnone, lookup_append_same _ _ _ hnone]
    have e4 : check4 cfg (answers ++ [("sleep_quality", .vnum 0)])
        = check4 cfg answers := by
      unfold check4
      rw [show lookupD (answers ++ [("sleep_quality", .vnum 0)]) "mental_state"
            (.vnum 0) = lookupD answers "mental_state" (.vnum 0) by
        simp [lookupD, lookup_append_other _ _ _ _
          (show "mental_state" ≠ "sleep_quality" by decide)]]
    have e5 : check5 cfg (answers ++ [("sleep_quality", .vnum 0)])
        = check5 cfg answers := by
      unfold check5
      rw [show lookupD (answers ++ [("sleep_quality", .vnum 0)]) "clear_bias"
            (.vbool false) = lookupD answers "clear_bias" (.vbool false) by
        simp [lookupD, lookup_append_other _ _ _ _
          (show "clear_bias" ≠ "sleep_quality" by decide)]]
    unfold hardStopEvaluate
    rw [e3, e4, e5]
  · intro hnone
    have e3 : check3 cfg (answers ++ [("mental_state", .vnum 0)])
        = check3 cfg answers := by
      unfold check3
      rw [show lookupD (answers ++ [("mental_state", .vnum 0)]) "sleep_quality"
            (.vnum 0) = lookupD answers "sleep_quality" (.vnum 0) by
        simp [lookupD, lookup_append_other _ _ _ _
          (show "sleep_quality" ≠ "mental_state" by decide)]]
    have e4 : check4 cfg (answers ++ [("mental_state", .vnum 0)])
        = check4 cfg answers := by
      unfold check4
      simp [lookupD, hnone, lookup_append_same _ _ _ hnone]
    have e5 : check5 cfg (answers ++ [("mental_state", .vnum 0)])
        = check5 cfg answers := by
      unfold check5
      rw [show lookupD (answers ++ [("mental_state", .vnum 0)]) "clear_bias"
            (.vbool false) = lookupD answers "clear_bias" (.vbool false) by
        simp [lookupD, lookup_append_other _ _ _ _
          (show "clear_bias" ≠ "mental_state" by decide)]]
    unfold hardStopEvaluate
    rw [e3, e4, e5]
  · intro hnone
    have e3 : check3 cfg (answers ++ [("clear_bias", .vbool false)])
        = check3 cfg answers := by
      unfold check3
      rw [show lookupD (answers ++ [("clear_bias", .vbool false)]) "sleep_quality"
            (.vnum 0) = lookupD answers "sleep_quality" (.vnum 0) by
        simp [lookupD, lookup_append_other _ _ _ _
          (show "sleep_quality" ≠ "clear_bias" by decide)]]
    have e4 : check4 cfg (answers ++ [("clear_bias", .vbool false)])
        = check4 cfg answers := by
      unfold check4
      rw [show lookupD (answers ++ [("clear_bias", .vbool false)]) "mental_state"
            (.vnum 0) = lookupD answers "mental_state" (.vnum 0) by
        simp [lookupD, lookup_append_other _ _ _ _
          (show "mental_state" ≠ "clear_bias" by decide)]]
    have e5 : check5 cfg (answers ++ [("clear_bias", .vbool false)])
        = check5 cfg answers := by
      unfold check5
      simp [lookupD, hnone, lookup_append_same _ _ _ hnone]
    unfold hardStopEvaluate
    rw [e3, e4, e5]

theorem hard_stop_missing_keys_amended_witness :
    ∃ r, hardStopEvaluate cfgEx.hard_stops [] [] = .ok r :=
  (hard_stop_missing_keys_amended cfgEx.hard_stops [] []
    (by norm_num [cfgEx]) (by norm_num [cfgEx])).1

/-- C1: when the hard-stop gate fails, `evaluate` returns immediately the
all-zero decision — `should_trade = false`, `risk_percent = 0`,
`final_score = 0`, empty `category_scores` and `answers`, null `lot_size`
— and the result does not depend on the scoring/risk configuration at all
(ScoreEngine and RiskDecider are never consulted). -/
theorem hard_stop_early_return :
    ∀ (cfg : Config) (answers : List (String × Val))
      (stats : List (String × ℚ)) (balance sl_pips : Option ℚ)
      (pair : Option String) (ts : String) (r : HardStopResult),
    hardStopEvaluate cfg.hard_stops answers stats = .ok r →
    r.passed = false →
    (evaluate cfg answers stats balance sl_pips pair ts = .ok
      { should_trade := false, risk_percent := 0, final_score := 0,
        category_scores := [], answers := [], hard_stop_result := r,
        lot_size := none, timestamp := ts })
    ∧ (∀ cfg2 : Config, cfg2.hard_stops = cfg.hard_stops →
        evaluate cfg2 answers stats balance sl_pips pair ts
          = evaluate cfg answers stats balance sl_pips pair ts) := by
  intro cfg answers stats b sp p ts r hok hfail
  constructor
  · unfold evaluate
    rw [hok]
    simp [hfail]
  · intro cfg2 h2
    unfold evaluate
    rw [h2, hok]
    simp [hfail]

theorem hard_stop_early_return_witness :
    evaluate cfgEx [] [] none none none "t" = .ok
      { should_trade := false, risk_percent := 0, final_score := 0,
        category_scores := [], answers := [], hard_stop_result := hsFailEx,
        lot_size := none, timestamp := "t" } :=
  (hard_stop_early_return cfgEx [] [] none none none "t" hsFailEx
      hsFailEx_eval hsFailEx_passed).1

/-- C9: `evaluate` is deterministic given its inputs and configuration:
two calls with identical answers and stats (and no trade details) agree on
every field of the returned decision except the timestamp, which is
exactly the supplied clock value. -/
theorem evaluate_deterministic_mod_timestamp :
    ∀ (cfg : Config) (answers : List (String × Val))
      (stats : List (String × ℚ)) (ts1 ts2 : String) (d1 d2 : RiskDecision),
    evaluate cfg answers stats none none none ts1 = .ok d1 →
    evaluate cfg answers stats none none none ts2 = .ok d2 →
    d1.should_trade = d2.should_trade ∧ d1.risk_percent = d2.risk_percent
    ∧ d1.final_score = d2.final_score
    ∧ d1.category_scores = d2.category_scores
    ∧ d1.answers = d2.answers
    ∧ d1.hard_stop_result = d2.hard_stop_result
    ∧ d1.lot_size = d2.lot_size
    ∧ d1.timestamp = ts1 ∧ d2.timestamp = ts2 := by
  intro cfg answers stats ts1 ts2 d1 d2 h1 h2
  unfold evaluate at h1 h2
  cases hh : hardStopEvaluate cfg.hard_stops answers stats with
  | error e => rw [hh] at h1; exact absurd h1 (by simp)
  | ok hsr =>
    rw [hh] at h1 h2
    dsimp only at h1 h2
    by_cases hp : hsr.passed
    · rcases hcf : calculate_final_score cfg answers with ⟨fs, cs, ans⟩
      rcases hdr : decide_risk cfg fs with ⟨st, rp⟩
      simp only [hp, if_true, hcf, hdr, Except.ok.injEq] at h1 h2
      subst h1
      subst h2
      exact ⟨rfl, rfl, rfl, rfl, rfl, rfl, rfl, rfl, rfl⟩
    · simp only [Bool.not_eq_true] at hp
      simp only [hp, Bool.false_eq_true, if_false, Except.ok.injEq] at h1 h2
      subst h1
      subst h2
      exact ⟨rfl, rfl, rfl, rfl, rfl, rfl, rfl, rfl, rfl⟩

theorem evaluate_deterministic_mod_timestamp_witness :
    ∃ d1 d2 : RiskDecision,
      evaluate cfgEx [] [] none none none "morning" = .ok d1 ∧
      evaluate cfgEx [] [] none none none "evening" = .ok d2 ∧
      d1.final_score = d2.final_score ∧ d1.timestamp = "morning" ∧
      d2.timestamp = "evening" := by
  have hok : ∀ ts : String, evaluate cfgEx [] [] none none none ts = .ok
      { should_trade := false, risk_percent := 0, final_score := 0,
        category_scores := [], answers := [], hard_stop_result := hsFailEx,
        lot_size := none, timestamp := ts } := fun ts =>
    evaluate_cfgEx_fail none none none ts
  obtain h := evaluate_deterministic_mod_timestamp cfgEx [] [] "morning"
    "evening" _ _ (hok "morning") (hok "evening")
  exact ⟨_, _, hok "morning", hok "evening", h.2.2.1, h.2.2.2.2.2.2.2.1,
    h.2.2.2.2.2.2.2.2⟩

/-- C10: in any decision `evaluate` returns, `lot_size` is present only
when `should_trade` is true and all three trade details are supplied and
truthy; a zero balance, zero stop-loss or empty instrument string is
treated as absent (null `lot_size`, no exception), and a no-trade
decision always has a null `lot_size`. -/
theorem lot_size_only_when_trading :
    ∀ (cfg : Config) (answers : List (String × Val))
      (stats : List (String × ℚ)) (balance sl_pips : Option ℚ)
      (pair : Option String) (ts : String) (d : RiskDecision),
    evaluate cfg answers stats balance sl_pips pair ts = .ok d →
    (d.lot_size.isSome →
      d.should_trade = true ∧ ∃ bv spv pv, balance = some bv ∧ bv ≠ 0
        ∧ sl_pips = some spv ∧ spv ≠ 0 ∧ pair = some pv ∧ pv ≠ "")
    ∧ ((balance = some 0 ∨ sl_pips = some 0 ∨ pair = some "") →
        d.lot_size = none)
    ∧ (d.should_trade = false → d.lot_size = none) := by
  intro cfg answers stats b sp p ts d h
  unfold evaluate at h
  cases hh : hardStopEvaluate cfg.hard_stops answers stats with
  | error e => rw [hh] at h; exact absurd h (by simp)
  | ok hsr =>
    rw [hh] at h
    dsimp only at h
    by_cases hp : hsr.passed
    · rcases hcf : calculate_final_score cfg answers with ⟨fs, cs, ans⟩
      rcases hdr : decide_risk cfg fs with ⟨st, rp⟩
      rw [if_pos hp, hcf, hdr] at h
      match b, sp, p with
      | some bv, some spv, some pv =>
        dsimp only at h
        by_cases hcond : (st : Prop) ∧ bv ≠ 0 ∧ spv ≠ 0 ∧ pv ≠ ""
        · rw [if_pos hcond] at h
          cases hls : calculate_lot_size cfg rp bv spv pv with
          | error e => rw [hls] at h; exact absurd h (by simp)
          | ok ls =>
            rw [hls] at h
            dsimp only at h
            obtain rfl := (Except.ok.injEq _ _).mp h.symm
            refine ⟨fun _ => ⟨hcond.1, bv, spv, pv, rfl, hcond.2.1, rfl,
              hcond.2.2.1, rfl, hcond.2.2.2⟩, fun hz => ?_, fun hst => ?_⟩
            · exfalso
              rcases hz with hz | hz | hz <;>
                (obtain rfl := (Option.some.injEq _ _).mp hz.symm) <;>
                simp_all
            · exact absurd hst (by simp [hcond.1])
        · rw [if_neg hcond] at h
          obtain rfl := (Except.ok.injEq _ _).mp h.symm
          exact ⟨by simp, fun _ => rfl, fun _ => rfl⟩
      | some bv, some spv, none =>
        dsimp only at h
        obtain rfl := (Except.ok.injEq _ _).mp h.symm
        exact ⟨by simp, fun _ => rfl, fun _ => rfl⟩
      | some bv, none, pv =>
        dsimp only at h
        obtain rfl := (Except.ok.injEq _ _).mp h.symm
        exact ⟨by simp, fun _ => rfl, fun _ => rfl⟩
      | none, spv, pv =>
        dsimp only at h
        obtain rfl := (Except.ok.injEq _ _).mp h.symm
        exact ⟨by simp, fun _ => rfl, fun _ => rfl⟩
    · rw [if_neg hp] at h
      obtain rfl := (Except.ok.injEq _ _).mp h.symm
      exact ⟨by simp, fun _ => rfl, fun _ => rfl⟩

theorem lot_size_only_when_trading_witness :
    ({ should_trade := false, risk_percent := 0, final_score := 0,
       category_scores := [], answers := [], hard_stop_result := hsFailEx,
       lot_size := none, timestamp := "t" } : RiskDecision).lot_size
      = none :=
  (lot_size_only_when_trading cfgEx [] [] (some 0) (some 5)
    (some "GBPUSD") "t" _
    (evaluate_cfgEx_fail (some 0) (some 5) (some "GBPUSD") "t")).2.1
    (Or.inl rfl)

/-! Part: Score aggregation as explicit sums -/

/-- The weight a question contributes to its category total: its
configured weight when the question is answered, 0 when it is skipped. -/
def qWeight (answers : List (String × Val)) (q : Question) : ℚ :=
  match answers.lookup q.id with
  | none => 0
  | some _ => q.weight.getD 1

/-- The weighted normalized score a question contributes: 0 when the
question is skipped. -/
def qContrib (answers : List (String × Val)) (q : Question) : ℚ :=
  match answers.lookup q.id with
  | none => 0
  | some v => normalize_answer q v * q.weight.getD 1

/-- The `Answer` record built for an answered question (none if skipped). -/
def qRecord (category : String) (answers : List (String × Val))
    (q : Question) : Option Answer :=
  (answers.lookup q.id).map fun v =>
    { question_id := q.id, question_text := q.question, answer := v,
      category := category, weight := q.weight.getD 1,
      normalized_score := normalize_answer q v }

theorem catScan_eq (category : String) (answers : List (String × Val))
    (qs : List Question) :
    catScan category answers qs =
      (qs.filterMap (qRecord category answers),
       (qs.map (qContrib answers)).sum,
       (qs.map (qWeight answers)).sum) := by
  induction qs with
  | nil => simp [catScan]
  | cons q rest ih =>
    cases hl : answers.lookup q.id with
    | none => simp [catScan, hl, ih, qRecord, qContrib, qWeight]
    | some v => simp [catScan, hl, ih, qRecord, qContrib, qWeight]

/-- The configured weight of a category (0 when not configured). -/
def catWeightOf (cfg : Config) (c : String) : ℚ :=
  lookupD cfg.scoring.weights c 0

/-- The score computed for a category. -/
def catScoreOf (cfg : Config) (answers : List (String × Val))
    (c : String) : ℚ :=
  (calculate_category_score cfg c answers).1

theorem finScan_eq (cfg : Config) (answers : List (String × Val))
    (cats : List String) :
    finScan cfg answers cats =
      (cats.map (fun c => (c, catScoreOf cfg answers c)),
       (cats.map (fun c => (calculate_category_score cfg c answers).2)).flatten,
       (cats.map (fun c => catScoreOf cfg answers c * catWeightOf cfg c)).sum,
       (cats.map (catWeightOf cfg)).sum) := by
  induction cats with
  | nil => simp [finScan]
  | cons c rest ih =>
    rcases hc : calculate_category_score cfg c answers with ⟨s, recs⟩
    simp [finScan, hc, ih, catScoreOf, catWeightOf]

/-- C6: `calculate_category_score` is the weighted mean
`Σ(normalizedᵢ·weightᵢ) / Σ weightᵢ` over exactly the configured questions
of the category that appear in `answers` (absent questions contribute
nothing and produce no record), with 0 when the total weight is 0 —
no division by zero; `calculate_final_score` iterates the three fixed
categories and combines their scores by weighted mean over the configured
category weights (a zero-weight category contributes 0 to numerator and
denominator alike), with 0 when the total category weight is 0. -/
theorem score_engine_weighted_mean :
    ∀ (cfg : Config) (category : String) (answers : List (String × Val)),
    (calculate_category_score cfg category answers =
      (if 0 < ((lookupD cfg.questions category []).map (qWeight answers)).sum
       then ((lookupD cfg.questions category []).map (qContrib answers)).sum
              / ((lookupD cfg.questions category []).map (qWeight answers)).sum
       else 0,
       (lookupD cfg.questions category []).filterMap
         (qRecord category answers)))
    ∧ ((∀ q ∈ lookupD cfg.questions category [], 0 ≤ q.weight.getD 1) →
        (calculate_category_score cfg category answers).1 =
          if ((lookupD cfg.questions category []).map (qWeight answers)).sum
              = 0 then 0
          else ((lookupD cfg.questions category []).map (qContrib answers)).sum
                 / ((lookupD cfg.questions category []).map
                     (qWeight answers)).sum)
    ∧ (calculate_final_score cfg answers =
        (if 0 < (categories.map (catWeightOf cfg)).sum
         then (categories.map (fun c =>
                catScoreOf cfg answers c * catWeightOf cfg c)).sum
                / (categories.map (catWeightOf cfg)).sum
         else 0,
         categories.map (fun c => (c, catScoreOf cfg answers c)),
         (categories.map (fun c =>
           (calculate_category_score cfg c answers).2)).flatten))
    ∧ ((∀ c ∈ categories, 0 ≤ catWeightOf cfg c) →
        (calculate_final_score cfg answers).1 =
          if (categories.map (catWeightOf cfg)).sum = 0 then 0
          else (categories.map (fun c =>
                 catScoreOf cfg answers c * catWeightOf cfg c)).sum
                 / (categories.map (catWeightOf cfg)).sum) := by
  intro cfg category answers
  have hcat : calculate_category_score cfg category answers =
      (if 0 < ((lookupD cfg.questions category []).map (qWeight answers)).sum
       then ((lookupD cfg.questions category []).map (qContrib answers)).sum
              / ((lookupD cfg.questions category []).map (qWeight answers)).sum
       else 0,
       (lookupD cfg.questions category []).filterMap
         (qRecord category answers)) := by
    unfold calculate_category_score
    dsimp only
    rw [catScan_eq]
  have hfin : calculate_final_score cfg answers =
      (if 0 < (categories.map (catWeightOf cfg)).sum
       then (categories.map (fun c =>
              catScoreOf cfg answers c * catWeightOf cfg c)).sum
              / (categories.map (catWeightOf cfg)).sum
       else 0,
       categories.map (fun c => (c, catScoreOf cfg answers c)),
       (categories.map (fun c =>
         (calculate_category_score cfg c answers).2)).flatten) := by
    unfold calculate_final_score
    dsimp only
    rw [finScan_eq]
  refine ⟨hcat, ?_, hfin, ?_⟩
  · intro hw
    have hnn : 0 ≤ ((lookupD cfg.questions category []).map
        (qWeight answers)).sum := by
      apply List.sum_nonneg
      intro x hx
      obtain ⟨q, hq, rfl⟩ := List.mem_map.mp hx
      unfold qWeight
      cases answers.lookup q.id
      · exact le_refl 0
      · exact hw q hq
    rw [hcat]
    rcases eq_or_lt_of_le hnn with h0 | h0
    · rw [if_neg (by rw [← h0]; exact lt_irrefl 0), if_pos h0.symm]
    · rw [if_pos h0, if_neg (by exact ne_of_gt h0)]
  · intro hw
    have hnn : 0 ≤ (categories.map (catWeightOf cfg)).sum := by
      apply List.sum_nonneg
      intro x hx
      obtain ⟨c, hc, rfl⟩ := List.mem_map.mp hx
      exact hw c hc
    rw [hfin]
    rcases eq_or_lt_of_le hnn with h0 | h0
    · rw [if_neg (by rw [← h0]; exact lt_irrefl 0), if_pos h0.symm]
    · rw [if_pos h0, if_neg (by exact ne_of_gt h0)]

theorem score_engine_weighted_mean_witness :
    (calculate_category_score cfgEx "psychology"
      [("mental_state", Val.vnum 5)]).1 = 100 := by
  have h := (score_engine_weighted_mean cfgEx "psychology"
      [("mental_state", Val.vnum 5)]).2.1
    (by simp only [lookupD, cfgEx, List.lookup]
        intro q hq
        simp at hq
        subst hq
        norm_num)
  rw [h]
  simp [lookupD, cfgEx, List.lookup, qWeight, qContrib, normalize_answer,
    Val.toQ]
  norm_num

/-! Part: ConfigLoader claims -/

/-- C8 counterexample: accessing an absent required key without a default
makes `ConfigLoader.get` return the null default — no failure — whereas
the spec's accessor fails with a `ConfigurationError`. -/
theorem config_get_missing_key_counterexample :
    cfgGet (.dict []) ["hard_stops", "max_consecutive_losses"] none = none
    ∧ specGet (.dict []) ["hard_stops", "max_consecutive_losses"] none
        = .error "ConfigurationError" :=
  ⟨rfl, rfl⟩

/-- C8 amended: the loader fails when the configuration source is missing
(`FileNotFoundError`); accessing an absent key without a default does not
fail — `ConfigLoader.get` returns the supplied default (null when none is
given). -/
theorem config_loader_amended :
    (loadConfig none = .error "FileNotFoundError")
    ∧ (∀ (entries : List (String × CVal)) (k : String) (ks : List String)
        (d : Option CVal), entries.lookup k = none →
        cfgGet (.dict entries) (k :: ks) d = d) := by
  refine ⟨rfl, ?_⟩
  intro entries k ks d h
  simp [cfgGet, h]

theorem config_loader_amended_witness :
    cfgGet (.dict []) ["questions"] none = none :=
  config_loader_amended.2 [] "questions" [] none rfl

end RiskLogic
